import Mathlib

/-!
Verification development for the `martian` library (Mars time conversions).

The Rust sources are shallowly embedded here:
* `src/time/constants.rs` and `src/time/functions.rs`: the ISO-8601 parsing and
  validation pipeline, and the UTC to Mars-Sol-Date conversion in its basic and
  advanced modes (`utc_to_msd`), plus the Martian clock derivation (`mtc_now`).
* `src/date/darian/constants.rs` and `src/date/darian/functions.rs`: the Darian
  calendar conversion (`msd_to_darian`, `is_darian_leap_year`,
  `get_darian_month_length`).

Modelling decisions, applied throughout:
* `f64` arithmetic is idealised as exact arithmetic over `ℚ` (and over `ℝ` where
  the code applies `sin` and a reduction modulo `2 * pi`).  Every concrete bound
  checked below holds with a margin that dwarfs double-precision rounding error.
  There are no infinities or NaNs in the exact model, so `f64::is_finite` is
  identically true and `is_sign_positive` becomes `0 ≤ x`.
* The external `hifitime` crate is modelled by its documented semantics: an
  `Epoch` is stored on the TAI scale (represented here by its TAI Julian-day
  value as a rational), `Epoch::from_gregorian_utc` converts UTC to TAI with the
  IERS-announced leap-second table, `to_jde_tt_days` returns the TAI Julian day
  plus `32.184 s`, adding a float to an epoch shifts it by that many seconds,
  and `Epoch::leap_seconds(true)` looks up the IERS table, returning `None`
  before the first entry (1972-01-01).  The lookup is keyed here on the UTC
  Julian day; the table thresholds are midnights, so on the civil inputs of the
  pipeline this agrees with hifitime's instant-keyed lookup except within a few
  seconds around a leap-second boundary, which no claim exercises.
* The regular expression `\d` class is modelled as the ASCII digits.  Per the
  spec the parser hands the core a `(year, month, day, hour, minute, second,
  millisecond)` tuple, and the seventh field of the civil tuple is taken to be
  milliseconds of the instant.
* Rust's saturating `as u32` cast and its truncating `%` on floats and on `i32`
  are modelled explicitly (`floor_to_u32`, `qfmod`, `fmod64`); the `%` tests of
  `is_darian_leap_year` are zero-tests, on which Lean's Euclidean `%` on `ℤ`
  agrees with Rust's truncated `%`.
* The two unbounded `loop`s of `msd_to_darian` are embedded as structurally
  recursive functions on an explicit fuel argument; the fuel passed at the call
  site is proved sufficient (`darian_year_fuel_spec`, `darian_month_spec`), so
  the embedded functions compute exactly what the source loops compute.
-/

namespace Martian

/-! ## Constants (src/time/constants.rs) -/

/-- Length of a Martian sol in Earth days (`SOL_IN_EARTH_DAYS`). -/
def SOL_IN_EARTH_DAYS : ℚ := 1.0274912517

/-- Julian Date where Mars Sol Date (MSD) is zero (`JD_ON_SOL_ZERO`). -/
def JD_ON_SOL_ZERO : ℚ := 2405522.0028779

/-- Difference in seconds between TAI and TT (`TAI_TO_TT_OFFSET`). -/
def TAI_TO_TT_OFFSET : ℚ := 32.184

/-- Minimum year for UTC time calculation, Sol 0 (`MIN_YEAR`, an `i32` in the
source; the parser only produces non-negative years, so `ℕ` is used here). -/
def MIN_YEAR : ℕ := 1873

/-- Minimum month for UTC time calculation, Sol 0 (`MIN_MONTH`). -/
def MIN_MONTH : ℕ := 12

/-- Minimum day for UTC time calculation, Sol 0 (`MIN_DAY`). -/
def MIN_DAY : ℕ := 29

/-! ## Error and data types (src/time/errors.rs, src/time/structs.rs,
src/date/darian/errors.rs, src/date/darian/structs.rs) -/

/-- `TimeError` from src/time/errors.rs. -/
inductive TimeError where
  | UtcTimeUnavailable
  | LeapSecondError
  | TimeCalculationError
  | InvalidArgumentError
  | ISO8601FormatError
  | DateBelowSolZeroError
deriving DecidableEq, Repr

/-- `DateError` from src/date/darian/errors.rs (`TimeError(..)` propagation,
`MonthValueOutOfRange`, `SolValueOutOfRange`, `UtcConversionError`). -/
inductive DateError where
  | timeError (e : TimeError)
  | MonthValueOutOfRange
  | SolValueOutOfRange
  | UtcConversionError
deriving DecidableEq, Repr

/-- `Time` from src/time/structs.rs: a Martian 24-hour clock reading.  The
fields are `u32` in the source; all values produced below fit easily. -/
structure Time where
  hours : ℕ
  minutes : ℕ
  seconds : ℕ
  milliseconds : ℕ
deriving DecidableEq, Repr

/-- `DarianDate` from src/date/darian/structs.rs (`year: i32`, `month: u8`,
`sol: f64`). -/
structure DarianDate where
  year : ℤ
  month : ℕ
  sol : ℚ
deriving DecidableEq, Repr

/-- Decidable equality for `Except`, used to state and check concrete results
of the fallible conversion functions. -/
instance {ε α : Type} [DecidableEq ε] [DecidableEq α] : DecidableEq (Except ε α) :=
  fun a b =>
    match a, b with
    | .ok x, .ok y =>
      if h : x = y then .isTrue (by rw [h]) else .isFalse (by intro hh; cases hh; exact h rfl)
    | .error e, .error e2 =>
      if h : e = e2 then .isTrue (by rw [h]) else .isFalse (by intro hh; cases hh; exact h rfl)
    | .ok _, .error _ => .isFalse (by intro h; cases h)
    | .error _, .ok _ => .isFalse (by intro h; cases h)

/-- The civil-time tuple produced by the parsing and validation stage of
`utc_to_msd` (regex captures 1-7 after `validate_regex_value` and the
millisecond defaulting of src/time/functions.rs lines 143-155). -/
structure CivilTime where
  year : ℕ
  month : ℕ
  day : ℕ
  hour : ℕ
  minute : ℕ
  second : ℕ
  millisecond : ℕ
deriving DecidableEq, Repr

/-! ## The ISO-8601 regular expression (src/time/constants.rs lines 10-12)

`ISO8601_REGEX` is the anchored pattern with capture groups
year `\d` 4-or-more, month/day/hour/minute/second `\d` 1-or-2 separated by
the literals `-`, `-`, `T`, `:`, `:`, then an optional group of a dot plus
1-or-more digits, then a lazy dot-star and the end anchor.  Each bounded digit
group is followed by a non-digit literal, so greedy maximal-munch matching with
an explicit length check is equivalent to the backtracking semantics; the
seconds group may be followed by further digits, which the trailing lazy
dot-star absorbs.  The trailing dot-star cannot match a newline character, so a
remainder containing one makes the whole match fail. -/

/-- The seven capture groups of `ISO8601_REGEX` as digit strings. -/
structure IsoCaptures where
  g1 : List Char
  g2 : List Char
  g3 : List Char
  g4 : List Char
  g5 : List Char
  g6 : List Char
  g7 : Option (List Char)
deriving DecidableEq, Repr

/-- Matching of `ISO8601_REGEX` against a character list: returns the capture
groups, or `none` when the pattern does not match. -/
def iso8601_captures (cs : List Char) : Option IsoCaptures :=
  let p1 := cs.span Char.isDigit
  if p1.1.length < 4 then none else
  match p1.2 with
  | '-' :: r1 =>
    let p2 := r1.span Char.isDigit
    if p2.1.length < 1 ∨ 2 < p2.1.length then none else
    match p2.2 with
    | '-' :: r2 =>
      let p3 := r2.span Char.isDigit
      if p3.1.length < 1 ∨ 2 < p3.1.length then none else
      match p3.2 with
      | 'T' :: r3 =>
        let p4 := r3.span Char.isDigit
        if p4.1.length < 1 ∨ 2 < p4.1.length then none else
        match p4.2 with
        | ':' :: r4 =>
          let p5 := r4.span Char.isDigit
          if p5.1.length < 1 ∨ 2 < p5.1.length then none else
          match p5.2 with
          | ':' :: r5 =>
            let p6 := r5.span Char.isDigit
            if p6.1.length < 1 then none else
            let rest := p6.1.drop 2 ++ p6.2
            if rest.any (fun c => c == '\n') then none else
            let g7 :=
              match rest with
              | '.' :: t =>
                let pf := t.span Char.isDigit
                if pf.1.length < 1 then none else some pf.1
              | _ => none
            some ⟨p1.1, p2.1, p3.1, p4.1, p5.1, p6.1.take 2, g7⟩
          | _ => none
        | _ => none
      | _ => none
    | _ => none
  | _ => none

/-- Numeric value of a digit string (the groups hold ASCII digits only). -/
def digitsToNat (cs : List Char) : ℕ :=
  cs.foldl (fun acc c => 10 * acc + (c.toNat - 48)) 0

/-! ## Field validation (src/time/functions.rs lines 143-155, 204-237) -/

/-- `validate_regex_value`: parse a captured digit string and range-check it.
Rust's integer `parse` fails on overflow of the target type; for the year the
target is `i32`, which the caller encodes by `max = 2147483647` (the captured
groups of the other fields have at most two digits, so their `u8` parse never
overflows).  Both a parse failure and a range failure give
`InvalidArgumentError`. -/
def validate_regex_value (g : List Char) (lo hi : ℕ) : Except TimeError ℕ :=
  let v := digitsToNat g
  if lo ≤ v ∧ v ≤ hi then .ok v else .error .InvalidArgumentError

/-- `validate_date` (src/time/functions.rs lines 223-237): the composed civil
date must not precede (MIN_YEAR, MIN_MONTH, MIN_DAY) = (1873, 12, 29). -/
def validate_date (year month day : ℕ) : Except TimeError Unit :=
  if year < MIN_YEAR then .error .DateBelowSolZeroError
  else if year = MIN_YEAR then
    if month < MIN_MONTH then .error .DateBelowSolZeroError
    else if month = MIN_MONTH ∧ day < MIN_DAY then .error .DateBelowSolZeroError
    else .ok ()
  else .ok ()

/-- The full parsing and validation stage of `utc_to_msd`
(src/time/functions.rs lines 140-155): regex match, then year, month, day
validation, then `validate_date`, then hour, minute, second validation, and
the millisecond default (an unparseable `u32` millisecond group becomes 0). -/
def parseValidate (cs : List Char) : Except TimeError CivilTime :=
  match iso8601_captures cs with
  | none => .error .ISO8601FormatError
  | some c => do
    let year ← validate_regex_value c.g1 0 2147483647
    let month ← validate_regex_value c.g2 1 12
    let day ← validate_regex_value c.g3 1 31
    let _ ← validate_date year month day
    let hour ← validate_regex_value c.g4 0 23
    let minute ← validate_regex_value c.g5 0 59
    let second ← validate_regex_value c.g6 0 59
    let millisecond :=
      match c.g7 with
      | none => 0
      | some g => if digitsToNat g ≤ 4294967295 then digitsToNat g else 0
    return ⟨year, month, day, hour, minute, second, millisecond⟩

/-! ## The hifitime epoch model

An `Epoch` is represented by its Julian-day value on the TAI scale.  hifitime
stores a duration since a fixed TAI reference, an affine reparametrisation of
this value that is immaterial to the conversions below. -/

/-- An instant, as its TAI-scale Julian-day value. -/
abbrev Epoch : Type := ℚ

/-- Julian day number of a Gregorian calendar date (standard algorithm; valid
for the validated field ranges `1 ≤ month ≤ 12`, `1 ≤ day ≤ 31` and any
non-negative year; the terms are ordered so Nat subtraction never truncates). -/
def gregorianJDN (y m d : ℕ) : ℕ :=
  let a := (14 - m) / 12
  let yy := y + 4800 - a
  let mm := m + 12 * a - 3
  d + (153 * mm + 2) / 5 + 365 * yy + yy / 4 + yy / 400 - yy / 100 - 32045

/-- UTC-scale Julian-day value of a civil-time tuple: the Julian day number
dates a noon, so midnight of the civil date is `JDN - 1/2`, plus the time of
day, the seventh field counting milliseconds. -/
def utcJD (f : CivilTime) : ℚ :=
  (gregorianJDN f.year f.month f.day : ℚ) - 1/2
    + (3600 * f.hour + 60 * f.minute + f.second : ℕ) / 86400
    + (f.millisecond : ℚ) / 86400000

/-- The IERS-announced leap-second table used by hifitime
(`Epoch::leap_seconds(true)`): cumulative TAI-UTC offset, keyed by the UTC
Julian day of the instant, `none` before the first entry (1972-01-01).  Each
threshold below is the Julian-day value of the given UTC midnight. -/
def leap_seconds (t : ℚ) : Option ℚ :=
  if t < 2441317.5 then none
  else some (
    if 2457754.5 ≤ t then 37      -- 2017-01-01
    else if 2457204.5 ≤ t then 36 -- 2015-07-01
    else if 2456109.5 ≤ t then 35 -- 2012-07-01
    else if 2454832.5 ≤ t then 34 -- 2009-01-01
    else if 2453736.5 ≤ t then 33 -- 2006-01-01
    else if 2451179.5 ≤ t then 32 -- 1999-01-01
    else if 2450630.5 ≤ t then 31 -- 1997-07-01
    else if 2450083.5 ≤ t then 30 -- 1996-01-01
    else if 2449534.5 ≤ t then 29 -- 1994-07-01
    else if 2449169.5 ≤ t then 28 -- 1993-07-01
    else if 2448804.5 ≤ t then 27 -- 1992-07-01
    else if 2448257.5 ≤ t then 26 -- 1991-01-01
    else if 2447892.5 ≤ t then 25 -- 1990-01-01
    else if 2447161.5 ≤ t then 24 -- 1988-01-01
    else if 2446247.5 ≤ t then 23 -- 1985-07-01
    else if 2445516.5 ≤ t then 22 -- 1983-07-01
    else if 2445151.5 ≤ t then 21 -- 1982-07-01
    else if 2444786.5 ≤ t then 20 -- 1981-07-01
    else if 2444239.5 ≤ t then 19 -- 1980-01-01
    else if 2443874.5 ≤ t then 18 -- 1979-01-01
    else if 2443509.5 ≤ t then 17 -- 1978-01-01
    else if 2443144.5 ≤ t then 16 -- 1977-01-01
    else if 2442778.5 ≤ t then 15 -- 1976-01-01
    else if 2442413.5 ≤ t then 14 -- 1975-01-01
    else if 2442048.5 ≤ t then 13 -- 1974-01-01
    else if 2441683.5 ≤ t then 12 -- 1973-01-01
    else if 2441499.5 ≤ t then 11 -- 1972-07-01
    else 10)                      -- 1972-01-01

/-- `Epoch::from_gregorian_utc`: the TAI Julian day of a civil UTC instant,
UTC plus the accumulated leap seconds (zero before the table starts). -/
def from_gregorian_utc (f : CivilTime) : Epoch :=
  utcJD f + ((leap_seconds (utcJD f)).getD 0) / 86400

/-- `Epoch + seconds` in hifitime: shift the instant by that many seconds. -/
def epochAddSeconds (e : Epoch) (s : ℚ) : Epoch :=
  (e : ℚ) + s / 86400

/-- `Epoch::to_jde_tt_days`: the Julian day on the TT scale, which is the TAI
Julian day plus `32.184 s`. -/
def to_jde_tt_days (e : Epoch) : ℚ :=
  (e : ℚ) + TAI_TO_TT_OFFSET / 86400

/-! ## utc_to_msd, basic mode (src/time/functions.rs lines 139-172) -/

/-- The numeric stage of `utc_to_msd` in basic mode (lines 157-172): build the
UTC epoch, take its TT-scale Julian day, apply the MSD affine formula with the
source's literal constants, and guard the result (`is_finite` is identically
true in the exact model, `is_sign_positive` is `0 ≤ msd`). -/
def utc_to_msd_fieldsBasic (f : CivilTime) : Except TimeError ℚ :=
  let utc := from_gregorian_utc f
  let jde_tt := to_jde_tt_days utc
  let msd : ℚ := (jde_tt - 2405522.0028779) / 1.0274912517
  if 0 ≤ msd then .ok msd else .error .TimeCalculationError

/-- `utc_to_msd(datetime, false)`: parse and validate, then the basic-mode
computation (the early-return branch at lines 162-172 of the source). -/
def utc_to_msd_basic (s : String) : Except TimeError ℚ :=
  (parseValidate s.data).bind utc_to_msd_fieldsBasic

/-! ## utc_to_msd, advanced mode (src/time/functions.rs lines 174-201)

The advanced branch applies `sin` and a reduction modulo `2 * pi`, so its
exact model lives in `ℝ`. -/

/-- Truncation toward zero on `ℝ` (the rounding used by Rust's float `%`). -/
noncomputable def truncInt (x : ℝ) : ℤ :=
  if 0 ≤ x then ⌊x⌋ else ⌈x⌉

/-- Rust's `%` on doubles: remainder with the sign of the dividend. -/
noncomputable def fmod64 (a b : ℝ) : ℝ :=
  a - b * truncInt (a / b)

/-- The numeric stage of `utc_to_msd` in advanced mode (lines 174-201): the
fallible leap-second lookup (line 175), the shift chain UTC to TAI to TT
(lines 179-183), the TT Julian day of the shifted epoch (line 186), the
periodic TT-to-TDB correction (lines 191-192), the MSD affine formula with the
named constants (line 195) and the final guard (lines 197-201). -/
noncomputable def utc_to_msd_fieldsAdvanced (f : CivilTime) : Except TimeError ℝ :=
  match leap_seconds (utcJD f) with
  | none => .error .LeapSecondError
  | some ls =>
    let utc := from_gregorian_utc f
    let now_tai := epochAddSeconds utc ls
    let now_tt := epochAddSeconds now_tai TAI_TO_TT_OFFSET
    let jd_tt : ℝ := ((to_jde_tt_days now_tt : ℚ) : ℝ)
    let m := fmod64 (6.24004077 + 0.01720197034 * (jd_tt - 2451545.0)) (2 * Real.pi)
    let jd_tdb := jd_tt + 0.001658 * Real.sin m + 0.000014 * Real.sin (2 * m)
    let msd := (jd_tdb - ((JD_ON_SOL_ZERO : ℚ) : ℝ)) / ((SOL_IN_EARTH_DAYS : ℚ) : ℝ)
    if 0 ≤ msd then .ok msd else .error .TimeCalculationError

/-- `utc_to_msd(datetime, true)`: parse and validate, then the advanced-mode
computation. -/
noncomputable def utc_to_msd_advanced (s : String) : Except TimeError ℝ :=
  (parseValidate s.data).bind utc_to_msd_fieldsAdvanced

/-! ## The Martian clock (src/time/functions.rs lines 344-365)

`mtc_now` obtains the current MSD from the wall clock (an external
collaborator) and derives a 24-hour Martian clock from it; the derivation
itself (lines 349-364) is embedded as a function of the MSD value. -/

/-- Truncation toward zero on `ℚ`. -/
def qtrunc (x : ℚ) : ℤ :=
  if 0 ≤ x then ⌊x⌋ else ⌈x⌉

/-- Rust's `%` on doubles, in the exact model: remainder with the sign of the
dividend. -/
def qfmod (a b : ℚ) : ℚ :=
  a - b * qtrunc (a / b)

/-- The clock derivation of `mtc_now` (lines 349-364): `hours` is
`(24 * msd) % 24`, minutes, seconds and milliseconds are successive fractional
parts; each field is floored (`as u32` saturates at zero on the negative
values that a negative `msd` would produce, modelled by `Int.toNat`) and the
milliseconds are rounded (Rust rounds half away from zero, which agrees with
`round` on the non-negative values produced by `msd ≥ 0`). -/
def mtc_from_msd (msd : ℚ) : Time :=
  let mtc_hours := qfmod (24 * msd) 24
  let hours := mtc_hours
  let minutes := qfmod mtc_hours 1 * 60
  let seconds := qfmod (mtc_hours * 60) 1 * 60
  let milliseconds := qfmod seconds 1 * 1000
  ⟨⌊hours⌋.toNat, ⌊minutes⌋.toNat, ⌊seconds⌋.toNat, (round milliseconds).toNat⟩

/-! ## The Darian calendar (src/date/darian/constants.rs,
src/date/darian/functions.rs) -/

/-- `DARIAN_MONTH_LENGTHS`: the 24 month lengths in sols. -/
def DARIAN_MONTH_LENGTHS : List ℕ :=
  [28, 28, 28, 28, 28, 27, 28, 28, 28, 28, 28, 27,
   28, 28, 28, 28, 28, 27, 28, 28, 28, 28, 28, 27]

/-- `DARIAN_YEAR_SOLS`: sols in a non-leap Darian year. -/
def DARIAN_YEAR_SOLS : ℕ := 668

/-- `SOL_DIFFERENCE_BETWEEN_DARIAN_AND_MSD`: offset in sols between the Darian
calendar epoch and the MSD epoch. -/
def SOL_DIFFERENCE_BETWEEN_DARIAN_AND_MSD : ℚ := 94130.9446045

/-- `is_darian_leap_year` (src/date/darian/functions.rs lines 139-145).  The
source tests `i32 %` results against zero; Lean's Euclidean `%` on `ℤ` agrees
with Rust's truncated `%` on every such zero-test. -/
def is_darian_leap_year (year : ℤ) : Bool :=
  if year % 100 == 0 then (if year % 500 == 0 then true else false)
  else (year % 2 != 0 || year % 10 == 0)

/-- `get_darian_month_length` (src/date/darian/functions.rs lines 148-155). -/
def get_darian_month_length (year : ℤ) (month : ℕ) : Except DateError ℕ :=
  if month < 1 ∨ 24 < month then .error .MonthValueOutOfRange
  else
    let base_length := DARIAN_MONTH_LENGTHS.getD (month - 1) 0
    .ok (if is_darian_leap_year year && (month == 24) then base_length + 1 else base_length)

/-- The per-year sol count used by the year loop of `msd_to_darian`
(src/date/darian/functions.rs line 112). -/
def year_length (year : ℤ) : ℕ :=
  if is_darian_leap_year year then 669 else 668

/-- The year loop of `msd_to_darian` (lines 111-119), with an explicit fuel
argument for structural recursion: while the remaining sols cover the current
year, subtract its length and advance the year.  `darian_year_fuel_spec`
proves the fuel passed at the call site suffices, so the fuel-zero case is
never the exit taken. -/
def darianYearAux : ℕ → ℕ → ℕ → ℕ × ℕ
  | 0, sols, year => (year, sols)
  | fuel + 1, sols, year =>
    if year_length (year : ℤ) ≤ sols then
      darianYearAux fuel (sols - year_length (year : ℤ)) (year + 1)
    else (year, sols)

/-- The month loop of `msd_to_darian` (lines 122-133), with an explicit fuel
argument: look up the current month's length (whose failure the source
propagates), stop when the remaining sols no longer cover it.  Starting from
month 1 with fuel 25, the loop either stops at a month of at most 24 or the
lookup at month 25 fails, so the fuel-zero case is never the exit taken. -/
def darianMonthAux : ℕ → ℤ → ℕ → ℕ → Except DateError (ℕ × ℕ)
  | 0, _, _, _ => .error .MonthValueOutOfRange
  | fuel + 1, year, month, sols =>
    match get_darian_month_length year month with
    | .error e => .error e
    | .ok month_length =>
      if sols < month_length then .ok (month, sols)
      else darianMonthAux fuel year (month + 1) (sols - month_length)

/-- Rust's saturating `f64 as u32` cast applied after `floor`. -/
def floor_to_u32 (x : ℚ) : ℕ :=
  (min (max ⌊x⌋ 0) 4294967295).toNat

/-- `msd_to_darian` (src/date/darian/functions.rs lines 97-136): rebase the
MSD onto the Darian epoch, split into whole sols (through the saturating
`as u32` cast) and the fractional part, resolve the year, then the month, and
assemble the date. -/
def msd_to_darian (msd : ℚ) : Except DateError DarianDate :=
  let adjusted_msd := msd + SOL_DIFFERENCE_BETWEEN_DARIAN_AND_MSD - 1
  let total_sols := floor_to_u32 adjusted_msd
  let sol_fraction := adjusted_msd - ⌊adjusted_msd⌋
  let yr := darianYearAux (total_sols / 668 + 1) total_sols 0
  (darianMonthAux 25 (yr.1 : ℤ) 1 yr.2).map
    (fun ms => ⟨(yr.1 : ℤ), ms.1, (ms.2 : ℚ) + sol_fraction⟩)

/-- Computation rule for `Except.map` on a success value. -/
theorem except_map_ok {ε α β : Type} (f : α → β) (x : α) :
    Except.map f (.ok x : Except ε α) = .ok (f x) := rfl

/-- Computation rule for `Except.map` on an error value. -/
theorem except_map_error {ε α β : Type} (f : α → β) (e : ε) :
    Except.map f (.error e : Except ε α) = .error e := rfl

/-! ## msd_to_utc (spec section 4.2) -/

/-- Rounding of an instant to millisecond precision: the instant denoted by an
ISO-8601 string with millisecond precision. -/
def round_to_ms (t : ℚ) : ℚ :=
  ((round (t * 86400000) : ℤ) : ℚ) / 86400000

/-- Modelled from the spec: `msd_to_utc` appears in the specification
(section 4.2, the advanced-mode inverse) but not among the source files, so it
is modelled here from the spec's words, at the instant level: reject a
negative MSD with the below-minimum error; map the MSD back through
`jd_tdb = msd * SOL_IN_EARTH_DAYS + JD_ON_SOL_ZERO`; construct a TT-scale
instant from `jd_tdb` directly, applying no TDB-to-TT periodic
back-correction; subtract the leap-second count (failing with
`LeapSecondError` when the lookup fails); and format with millisecond
precision -- the returned rational is the UTC Julian day denoted by the
resulting ISO-8601 string. -/
def msd_to_utc (msd : ℚ) : Except TimeError ℚ :=
  if msd < 0 then .error .DateBelowSolZeroError
  else
    let jd_tdb := msd * SOL_IN_EARTH_DAYS + JD_ON_SOL_ZERO
    let e : Epoch := jd_tdb - TAI_TO_TT_OFFSET / 86400
    match leap_seconds e with
    | none => .error .LeapSecondError
    | some ls => .ok (round_to_ms (e - ls / 86400))

/-- The basic-mode MSD as a function of the UTC Julian day of the parsed
instant: `utc_to_msd_fieldsBasic` computes exactly this value of `utcJD f`
(see `utc_to_msd_fieldsBasic_eq`). -/
def msd_of_utc_jd (u : ℚ) : ℚ :=
  (to_jde_tt_days (u + ((leap_seconds u).getD 0) / 86400) - JD_ON_SOL_ZERO)
    / SOL_IN_EARTH_DAYS

/-! ## General lemmas -/

/-- A Darian year has at least 668 sols. -/
theorem year_length_ge (y : ℤ) : 668 ≤ year_length y := by
  unfold year_length; split <;> norm_num

/-- A Darian year has at most 669 sols. -/
theorem year_length_le (y : ℤ) : year_length y ≤ 669 := by
  unfold year_length; split <;> norm_num

/-- The year loop, run with fuel at least `sols / 668 + 1`, stops with a
remainder smaller than the length of the year it stops in. -/
theorem darian_year_fuel_spec :
    ∀ (fuel sols year : ℕ), sols / 668 + 1 ≤ fuel →
      (darianYearAux fuel sols year).2
        < year_length (((darianYearAux fuel sols year).1 : ℕ) : ℤ) := by
  intro fuel
  induction fuel with
  | zero => intro sols year h; omega
  | succ n ih =>
    intro sols year h
    rw [darianYearAux]
    split
    case isTrue hle =>
      apply ih
      have h668 : 668 ≤ year_length (year : ℤ) := year_length_ge _
      have hs : 668 ≤ sols := le_trans h668 hle
      have hdiv : sols / 668 = (sols - 668) / 668 + 1 :=
        Nat.div_eq_sub_div (by norm_num) hs
      have hmono : (sols - year_length (year : ℤ)) / 668 ≤ (sols - 668) / 668 :=
        Nat.div_le_div_right (by omega)
      omega
    case isFalse hlt => simpa using Nat.lt_of_not_le hlt

/-- Capacity of the month loop: the total sols the loop can consume starting
at a given month with the given fuel. -/
def darianMonthCap : ℕ → ℤ → ℕ → ℕ
  | 0, _, _ => 0
  | fuel + 1, year, month =>
    ((get_darian_month_length year month).toOption.getD 0)
      + darianMonthCap fuel year (month + 1)

/-- Past month 24 the month-length lookup fails, so the capacity is zero. -/
theorem darianMonthCap_zero (fuel : ℕ) (year : ℤ) :
    ∀ month, 25 ≤ month → darianMonthCap fuel year month = 0 := by
  induction fuel with
  | zero => intro month _; rfl
  | succ n ih =>
    intro month hm
    rw [darianMonthCap, get_darian_month_length, if_pos (by omega), ih (month + 1) (by omega)]
    rfl

/-- If the month-length lookup succeeds, the month is in `1..24`. -/
theorem month_of_get_ok {year : ℤ} {month len : ℕ}
    (h : get_darian_month_length year month = .ok len) : 1 ≤ month ∧ month ≤ 24 := by
  by_contra hc
  rw [get_darian_month_length, if_pos (by omega)] at h
  cases h

/-- The month loop, started within the remaining capacity, returns a month in
`1..24` and a remainder below that month's length. -/
theorem darian_month_spec :
    ∀ (fuel : ℕ) (year : ℤ) (month sols : ℕ), 1 ≤ month →
      sols < darianMonthCap fuel year month →
      ∃ mo rem len, darianMonthAux fuel year month sols = .ok (mo, rem) ∧
        get_darian_month_length year mo = .ok len ∧
        1 ≤ mo ∧ mo ≤ 24 ∧ rem < len := by
  intro fuel
  induction fuel with
  | zero => intro year month sols _ hcap; exact absurd hcap (by simp [darianMonthCap])
  | succ n ih =>
    intro year month sols hm hcap
    rw [darianMonthCap] at hcap
    cases hg : get_darian_month_length year month with
    | error e =>
      exfalso
      have h25 : 25 ≤ month := by
        by_contra hc
        rw [get_darian_month_length, if_neg (by omega)] at hg
        cases hg
      rw [hg] at hcap
      rw [darianMonthCap_zero n year (month + 1) (by omega)] at hcap
      simp [Except.toOption] at hcap
    | ok len =>
      rw [hg] at hcap
      simp only [Except.toOption, Option.getD_some] at hcap
      by_cases hlt : sols < len
      · refine ⟨month, sols, len, ?_, hg, hm, (month_of_get_ok hg).2, hlt⟩
        rw [darianMonthAux, hg]
        exact if_pos hlt
      · have hred : darianMonthAux (n + 1) year month sols
            = darianMonthAux n year (month + 1) (sols - len) := by
          rw [darianMonthAux, hg]
          exact if_neg hlt
        rw [hred]
        exact ih year (month + 1) (sols - len) (by omega) (by omega)

/-- The month-loop capacity at month 1 with fuel 25 is exactly one year's
sols (668, or 669 with the leap sol), so it covers the year loop's remainder. -/
theorem year_length_le_cap (y : ℤ) : year_length y ≤ darianMonthCap 25 y 1 := by
  cases h : is_darian_leap_year y <;>
    simp [year_length, darianMonthCap, get_darian_month_length, DARIAN_MONTH_LENGTHS,
      Except.toOption, h]

/-- `msd_to_darian` always succeeds: the year loop leaves a remainder below the
stopping year's length, well within the month loop's capacity, and the result
carries a month in `1..24` and a whole-sol remainder below that month's
length. -/
theorem msd_to_darian_eq (msd : ℚ) :
    ∃ (mo rem len : ℕ),
      msd_to_darian msd = .ok
        ⟨(((darianYearAux
            (floor_to_u32 (msd + SOL_DIFFERENCE_BETWEEN_DARIAN_AND_MSD - 1) / 668 + 1)
            (floor_to_u32 (msd + SOL_DIFFERENCE_BETWEEN_DARIAN_AND_MSD - 1)) 0).1 : ℕ) : ℤ),
          mo,
          (rem : ℚ) + ((msd + SOL_DIFFERENCE_BETWEEN_DARIAN_AND_MSD - 1)
            - (⌊msd + SOL_DIFFERENCE_BETWEEN_DARIAN_AND_MSD - 1⌋ : ℤ))⟩ ∧
      get_darian_month_length
        (((darianYearAux
            (floor_to_u32 (msd + SOL_DIFFERENCE_BETWEEN_DARIAN_AND_MSD - 1) / 668 + 1)
            (floor_to_u32 (msd + SOL_DIFFERENCE_BETWEEN_DARIAN_AND_MSD - 1)) 0).1 : ℕ) : ℤ)
        mo = .ok len ∧
      1 ≤ mo ∧ mo ≤ 24 ∧ rem < len := by
  have hy := darian_year_fuel_spec
    (floor_to_u32 (msd + SOL_DIFFERENCE_BETWEEN_DARIAN_AND_MSD - 1) / 668 + 1)
    (floor_to_u32 (msd + SOL_DIFFERENCE_BETWEEN_DARIAN_AND_MSD - 1)) 0 (le_refl _)
  have hcap := lt_of_lt_of_le hy (year_length_le_cap _)
  obtain ⟨mo, rem, len, haux, hg, h1, h24, hrem⟩ :=
    darian_month_spec 25 _ 1 _ (le_refl 1) hcap
  refine ⟨mo, rem, len, ?_, hg, h1, h24, hrem⟩
  simp only [msd_to_darian, haux, except_map_ok]

/-- Rust's float remainder stays strictly below a positive modulus. -/
theorem qfmod_lt (a b : ℚ) (hb : 0 < b) : qfmod a b < b := by
  have hx : a = b * (a / b) := by field_simp
  unfold qfmod qtrunc
  split
  case isTrue h =>
    have h2 : a / b < (⌊a / b⌋ : ℚ) + 1 := Int.lt_floor_add_one _
    nlinarith
  case isFalse h =>
    have h1 : a / b ≤ (⌈a / b⌉ : ℚ) := Int.le_ceil _
    nlinarith

/-- Rust's float remainder stays strictly above the negated positive modulus. -/
theorem qfmod_gt (a b : ℚ) (hb : 0 < b) : -b < qfmod a b := by
  have hx : a = b * (a / b) := by field_simp
  unfold qfmod qtrunc
  split
  case isTrue h =>
    have h1 : (⌊a / b⌋ : ℚ) ≤ a / b := Int.floor_le _
    nlinarith
  case isFalse h =>
    have h2 : (⌈a / b⌉ : ℚ) < a / b + 1 := Int.ceil_lt_add_one _
    nlinarith

/-- Field bounds of the Martian clock, for every `msd` (negative inputs only
drive the saturating casts to zero): hours below 24, minutes and seconds below
60, milliseconds at most 1000 -- the millisecond rounding can land exactly on
1000. -/
theorem mtc_from_msd_bounds (msd : ℚ) :
    (mtc_from_msd msd).hours < 24 ∧ (mtc_from_msd msd).minutes < 60 ∧
      (mtc_from_msd msd).seconds < 60 ∧ (mtc_from_msd msd).milliseconds ≤ 1000 := by
  unfold mtc_from_msd
  have hh := qfmod_lt (24 * msd) 24 (by norm_num)
  have hm := qfmod_lt (qfmod (24 * msd) 24) 1 (by norm_num)
  have hs := qfmod_lt (qfmod (24 * msd) 24 * 60) 1 (by norm_num)
  have hns := qfmod_lt (qfmod (qfmod (24 * msd) 24 * 60) 1 * 60) 1 (by norm_num)
  refine ⟨?_, ?_, ?_, ?_⟩
  · have : ⌊qfmod (24 * msd) 24⌋ < 24 := Int.floor_lt.2 (by exact_mod_cast hh)
    simp only []
    omega
  · have : ⌊qfmod (qfmod (24 * msd) 24) 1 * 60⌋ < 60 := Int.floor_lt.2 (by push_cast; linarith)
    simp only []
    omega
  · have : ⌊qfmod (qfmod (24 * msd) 24 * 60) 1 * 60⌋ < 60 := Int.floor_lt.2 (by push_cast; linarith)
    simp only []
    omega
  · have : round (qfmod (qfmod (qfmod (24 * msd) 24 * 60) 1 * 60) 1 * 1000) ≤ 1000 := by
      rw [round_eq]
      have : ⌊qfmod (qfmod (qfmod (24 * msd) 24 * 60) 1 * 60) 1 * 1000 + 1 / 2⌋ < 1001 :=
        Int.floor_lt.2 (by push_cast; linarith)
      omega
    simp only []
    omega

/-- `Except.bind` fails exactly when the first stage fails or the first stage
succeeds and the second fails. -/
theorem except_bind_error {ε α β : Type} {x : Except ε α} {f : α → Except ε β} {e : ε}
    (h : x.bind f = .error e) : x = .error e ∨ ∃ a, x = .ok a ∧ f a = .error e := by
  cases x with
  | error e2 =>
    left
    cases h
    rfl
  | ok a => exact Or.inr ⟨a, rfl, h⟩

/-- `validate_regex_value` fails only with `InvalidArgumentError`. -/
theorem validate_regex_value_error {g : List Char} {lo hi : ℕ} {e : TimeError}
    (h : validate_regex_value g lo hi = .error e) : e = .InvalidArgumentError := by
  simp only [validate_regex_value] at h
  split at h
  · cases h
  · cases h
    rfl

/-- `validate_date` fails only with `DateBelowSolZeroError`. -/
theorem validate_date_error {y m d : ℕ} {e : TimeError}
    (h : validate_date y m d = .error e) : e = .DateBelowSolZeroError := by
  unfold validate_date at h
  split_ifs at h <;> cases h <;> rfl

/-- The parsing and validation stage fails only with a format, argument or
below-Sol-0 error; in particular it never consults the leap-second table. -/
theorem parseValidate_error {cs : List Char} {e : TimeError}
    (h : parseValidate cs = .error e) :
    e = .ISO8601FormatError ∨ e = .InvalidArgumentError ∨ e = .DateBelowSolZeroError := by
  unfold parseValidate at h
  cases hiso : iso8601_captures cs with
  | none =>
    rw [hiso] at h
    cases h
    exact Or.inl rfl
  | some c =>
    rw [hiso] at h
    simp only [bind] at h
    rcases except_bind_error h with h1 | ⟨year, -, h1⟩
    · exact Or.inr (Or.inl (validate_regex_value_error h1))
    rcases except_bind_error h1 with h2 | ⟨month, -, h2⟩
    · exact Or.inr (Or.inl (validate_regex_value_error h2))
    rcases except_bind_error h2 with h3 | ⟨day, -, h3⟩
    · exact Or.inr (Or.inl (validate_regex_value_error h3))
    rcases except_bind_error h3 with h4 | ⟨u, -, h4⟩
    · exact Or.inr (Or.inr (validate_date_error h4))
    rcases except_bind_error h4 with h5 | ⟨hour, -, h5⟩
    · exact Or.inr (Or.inl (validate_regex_value_error h5))
    rcases except_bind_error h5 with h6 | ⟨minute, -, h6⟩
    · exact Or.inr (Or.inl (validate_regex_value_error h6))
    rcases except_bind_error h6 with h7 | ⟨second, -, h7⟩
    · exact Or.inr (Or.inl (validate_regex_value_error h7))
    cases h7

/-- Tests whether a result is the leap-second failure. -/
def is_leap_second_err {α : Type} : Except TimeError α → Bool
  | .error .LeapSecondError => true
  | _ => false

/-- Basic mode never returns `LeapSecondError`: the leap-second lookup of the
advanced branch is behind the early return, and the basic branch fails only
through parsing, validation, or the final sign guard. -/
theorem utc_to_msd_basic_ne_leap (s : String) :
    is_leap_second_err (utc_to_msd_basic s) = false := by
  unfold utc_to_msd_basic
  cases hp : parseValidate s.data with
  | error e =>
    rcases parseValidate_error hp with h | h | h <;>
      simp [Except.bind, is_leap_second_err, h]
  | ok f =>
    simp only [Except.bind, utc_to_msd_fieldsBasic]
    split <;> rfl

/-! ## Claim theorems -/

/-- C1: on every civil-time tuple that reaches the numeric stage, basic-mode
`utc_to_msd` returns exactly `(jde_tt - 2405522.0028779) / 1.0274912517` with
those literal constants, `jde_tt` being the TT-scale Julian day of the
instant (subject only to the defensive non-negativity guard); composed with
parsing, `utc_to_msd("2012-08-06T05:17:57.000", basic)` is within 0.01 of
49269.25 and `utc_to_msd("2024-11-07T17:58:40.000", basic)` is within 1e-4 of
53626.0011. -/
theorem C1_basic_mode_formula :
    (∀ f : CivilTime,
      utc_to_msd_fieldsBasic f =
        if 0 ≤ (to_jde_tt_days (from_gregorian_utc f) - 2405522.0028779) / 1.0274912517 then
          .ok ((to_jde_tt_days (from_gregorian_utc f) - 2405522.0028779) / 1.0274912517)
        else .error .TimeCalculationError) ∧
    (∀ s : String, utc_to_msd_basic s = (parseValidate s.data).bind utc_to_msd_fieldsBasic) ∧
    (utc_to_msd_basic ("2012-08-06T05:17:57.000") = .ok (13668404048542000/277422637959) ∧
      |(13668404048542000/277422637959 : ℚ) - 49269.25| < 1/100) ∧
    (utc_to_msd_basic ("2024-11-07T17:58:40.000") = .ok (14877066689167000/277422637959) ∧
      |(14877066689167000/277422637959 : ℚ) - 53626.0011| < 1/10000) := by
  refine ⟨fun f => rfl, fun s => rfl, ⟨?_, ?_⟩, ⟨?_, ?_⟩⟩
  · have hp : parseValidate ("2012-08-06T05:17:57.000").data
        = .ok ⟨2012, 8, 6, 5, 17, 57, 0⟩ := by decide
    rw [utc_to_msd_basic, hp]
    norm_num [Except.bind, utc_to_msd_fieldsBasic, from_gregorian_utc, to_jde_tt_days, utcJD,
      leap_seconds, gregorianJDN, TAI_TO_TT_OFFSET]
  · rw [abs_sub_lt_iff]
    norm_num
  · have hp : parseValidate ("2024-11-07T17:58:40.000").data
        = .ok ⟨2024, 11, 7, 17, 58, 40, 0⟩ := by decide
    rw [utc_to_msd_basic, hp]
    norm_num [Except.bind, utc_to_msd_fieldsBasic, from_gregorian_utc, to_jde_tt_days, utcJD,
      leap_seconds, gregorianJDN, TAI_TO_TT_OFFSET]
  · rw [abs_sub_lt_iff]
    norm_num

/-- C2: `is_darian_leap_year` holds exactly when, for a century year, the year
is a multiple of 500, and otherwise when the year is odd or a multiple of 10;
the stated fixed cases hold, and the calendar conversion uses 669 sols for a
leap year and 668 otherwise. -/
theorem C2_leap_year_rule :
    (∀ y : ℤ, (is_darian_leap_year y = true ↔
      (if y % 100 = 0 then y % 500 = 0 else (y % 2 ≠ 0 ∨ y % 10 = 0)))) ∧
    is_darian_leap_year 2000 = true ∧ is_darian_leap_year 1900 = false ∧
    is_darian_leap_year 3 = true ∧ is_darian_leap_year 10 = true ∧
    is_darian_leap_year 4 = false ∧
    (∀ y : ℤ, year_length y = if is_darian_leap_year y then 669 else 668) := by
  refine ⟨?_, by decide, by decide, by decide, by decide, by decide, fun y => rfl⟩
  intro y
  by_cases h1 : y % 100 = 0 <;> by_cases h2 : y % 500 = 0 <;>
    simp [is_darian_leap_year, h1, h2]

/-- C3 counterexample: the claim asserts that
`utc_to_msd("1873-12-29T00:00:00.000", basic)` succeeds with an MSD close to
zero; in fact the date passes the Sol-0 validation but the computed MSD is
about -0.489 (MSD zero falls near 12:04 UTC of that day), so the call fails
with `TimeCalculationError`. -/
theorem C3_boundary_counterexample :
    utc_to_msd_basic ("1873-12-29T00:00:00.000") = .error .TimeCalculationError := by
  have hp : parseValidate ("1873-12-29T00:00:00.000").data
      = .ok ⟨1873, 12, 29, 0, 0, 0, 0⟩ := by decide
  rw [utc_to_msd_basic, hp]
  norm_num [Except.bind, utc_to_msd_fieldsBasic, from_gregorian_utc, to_jde_tt_days, utcJD,
    leap_seconds, gregorianJDN, TAI_TO_TT_OFFSET]

/-- C3 (amended): `validate_date` rejects exactly the (year, month, day)
triples lexicographically below (1873, 12, 29) with `DateBelowSolZeroError`,
time-of-day fields playing no part; `utc_to_msd("1873-12-28T23:59:59.999",
basic)` fails with `DateBelowSolZeroError`; and `1873-12-29T00:00:00.000`
passes the date validation but fails with `TimeCalculationError`, its computed
MSD being negative (about -0.489). -/
theorem C3_amended :
    (∀ y mo d : ℕ, validate_date y mo d =
      if y < 1873 ∨ (y = 1873 ∧ (mo < 12 ∨ (mo = 12 ∧ d < 29))) then
        .error .DateBelowSolZeroError
      else .ok ()) ∧
    utc_to_msd_basic ("1873-12-28T23:59:59.999") = .error .DateBelowSolZeroError ∧
    parseValidate ("1873-12-29T00:00:00.000").data = .ok ⟨1873, 12, 29, 0, 0, 0, 0⟩ ∧
    utc_to_msd_basic ("1873-12-29T00:00:00.000") = .error .TimeCalculationError := by
  refine ⟨?_, by decide, by decide, ?_⟩
  · intro y mo d
    unfold validate_date MIN_YEAR MIN_MONTH MIN_DAY
    split_ifs <;> first | rfl | (exfalso; omega)
  · have hp : parseValidate ("1873-12-29T00:00:00.000").data
        = .ok ⟨1873, 12, 29, 0, 0, 0, 0⟩ := by decide
    rw [utc_to_msd_basic, hp]
    norm_num [Except.bind, utc_to_msd_fieldsBasic, from_gregorian_utc, to_jde_tt_days, utcJD,
      leap_seconds, gregorianJDN, TAI_TO_TT_OFFSET]

/-- C4: advanced-mode `utc_to_msd` computes, on the parsed tuple, the chain
TAI = UTC + leap seconds, TT = TAI + 32.184 s exactly, `jd_tt` the TT-scale
Julian day of that instant, `M = (6.24004077 + 0.01720197034 * (jd_tt -
2451545.0)) mod 2*pi` (Rust float remainder), `jd_tdb = jd_tt + 0.001658 *
sin M + 0.000014 * sin (2M)`, and `MSD = (jd_tdb - JD_ON_SOL_ZERO) /
SOL_IN_EARTH_DAYS`, guarded by the non-negativity check; a failed leap-second
lookup gives `LeapSecondError`; and basic mode never returns
`LeapSecondError`. -/
theorem C4_advanced_chain :
    (∀ f : CivilTime,
      utc_to_msd_fieldsAdvanced f =
        match leap_seconds (utcJD f) with
        | none => .error .LeapSecondError
        | some ls =>
          let jd_tt : ℝ := ((to_jde_tt_days (epochAddSeconds
            (epochAddSeconds (from_gregorian_utc f) ls) TAI_TO_TT_OFFSET) : ℚ) : ℝ)
          let m := fmod64 (6.24004077 + 0.01720197034 * (jd_tt - 2451545.0)) (2 * Real.pi)
          let jd_tdb := jd_tt + 0.001658 * Real.sin m + 0.000014 * Real.sin (2 * m)
          let msd := (jd_tdb - ((JD_ON_SOL_ZERO : ℚ) : ℝ)) / ((SOL_IN_EARTH_DAYS : ℚ) : ℝ)
          if 0 ≤ msd then .ok msd else .error .TimeCalculationError) ∧
    (∀ s : String, utc_to_msd_advanced s = (parseValidate s.data).bind utc_to_msd_fieldsAdvanced) ∧
    (∀ s : String, is_leap_second_err (utc_to_msd_basic s) = false) :=
  ⟨fun _ => rfl, fun _ => rfl, utc_to_msd_basic_ne_leap⟩

/-- C5: the Darian month length comes from the fixed 24-entry table, 28 sols
everywhere except months 6, 12, 18 and 24, which have 27 in a non-leap year;
in a leap year month 24 (and only month 24) gains one sol, becoming 28; and
the lookup fails with `MonthValueOutOfRange` exactly for months outside
`1..24`. -/
theorem C5_month_length_table :
    ∀ (y : ℤ) (m : ℕ),
      get_darian_month_length y m =
        if 1 ≤ m ∧ m ≤ 24 then
          .ok (if (m = 6 ∨ m = 12 ∨ m = 18 ∨ m = 24) ∧
                 ¬(is_darian_leap_year y = true ∧ m = 24) then 27 else 28)
        else .error .MonthValueOutOfRange := by
  intro y m
  by_cases hm : 1 ≤ m ∧ m ≤ 24
  · rw [if_pos hm]
    obtain ⟨hm1, hm2⟩ := hm
    interval_cases m <;> cases hleap : is_darian_leap_year y <;>
      simp [get_darian_month_length, DARIAN_MONTH_LENGTHS, hleap, List.getD]
  · rw [if_neg hm, get_darian_month_length, if_pos (by omega)]

/-- C6: every successful `msd_to_darian` result has a month in `1..24` and a
sol with `0 ≤ sol < month_length(year, month)`, the length including the
leap-sol extension of month 24; and `msd_to_darian(53626.0011)` gives year
220, month 24 and a sol within 0.1 of 25. -/
theorem C6_calendar_invariant :
    (∀ (msd sol : ℚ) (y : ℤ) (mo : ℕ),
      msd_to_darian msd = .ok ⟨y, mo, sol⟩ →
        1 ≤ mo ∧ mo ≤ 24 ∧ 0 ≤ sol ∧
          sol < (((get_darian_month_length y mo).toOption.getD 0 : ℕ) : ℚ)) ∧
    (msd_to_darian (53626.0011) = .ok ⟨220, 24, 49891409/2000000⟩ ∧
      |(49891409/2000000 : ℚ) - 25| < 1/10) := by
  constructor
  · intro msd sol y mo h
    obtain ⟨mo2, rem, len, heq, hg, hm1, hm24, hrem⟩ := msd_to_darian_eq msd
    rw [heq] at h
    simp only [Except.ok.injEq, DarianDate.mk.injEq] at h
    obtain ⟨hy, hmo, hsol⟩ := h
    subst hy
    subst hmo
    subst hsol
    have hfr0 : 0 ≤ (msd + SOL_DIFFERENCE_BETWEEN_DARIAN_AND_MSD - 1)
        - (⌊msd + SOL_DIFFERENCE_BETWEEN_DARIAN_AND_MSD - 1⌋ : ℤ) :=
      sub_nonneg.2 (Int.floor_le _)
    have hfr1 : (msd + SOL_DIFFERENCE_BETWEEN_DARIAN_AND_MSD - 1)
        - (⌊msd + SOL_DIFFERENCE_BETWEEN_DARIAN_AND_MSD - 1⌋ : ℤ) < 1 := by
      have := Int.lt_floor_add_one (msd + SOL_DIFFERENCE_BETWEEN_DARIAN_AND_MSD - 1)
      linarith
    refine ⟨hm1, hm24, by positivity, ?_⟩
    rw [hg]
    simp only [Except.toOption, Option.getD_some]
    have : (rem : ℚ) + 1 ≤ (len : ℚ) := by exact_mod_cast Nat.succ_le_of_lt hrem
    linarith
  · constructor
    · have h1 : (53626.0011 : ℚ) + SOL_DIFFERENCE_BETWEEN_DARIAN_AND_MSD - 1
          = 295511891409/2000000 := by
        norm_num [SOL_DIFFERENCE_BETWEEN_DARIAN_AND_MSD]
      have hf : ⌊(295511891409/2000000 : ℚ)⌋ = 147755 := by norm_num
      have h2 : floor_to_u32 (295511891409/2000000) = 147755 := by
        rw [floor_to_u32, hf]
        decide
      have hY : darianYearAux (147755 / 668 + 1) 147755 0 = (220, 665) := by decide
      have hM : darianMonthAux 25 ((220 : ℕ) : ℤ) 1 665 = .ok (24, 24) := by decide
      simp only [msd_to_darian, h1, h2, hY, hM, hf, except_map_ok, DarianDate.mk.injEq]
      norm_num
    · rw [abs_sub_lt_iff]
      norm_num

/-- C6 witness: the invariant instantiated at `msd = 53626.0011`, whose result
is year 220, month 24, sol 24.9457045. -/
theorem C6_calendar_invariant_witness :
    1 ≤ 24 ∧ (24 : ℕ) ≤ 24 ∧ (0 : ℚ) ≤ 49891409/2000000 ∧
      (49891409/2000000 : ℚ)
        < (((get_darian_month_length 220 24).toOption.getD 0 : ℕ) : ℚ) :=
  C6_calendar_invariant.1 (53626.0011) (49891409/2000000) 220 24
    C6_calendar_invariant.2.1

/-- C7 counterexample: the claim fixes the clock of `msd = 49269.25` at
5:53:28, but `49269.25` has fractional part exactly 1/4, giving 06:00:00.000
(the quoted 5:53:28 belongs to the MSD computed from the Curiosity landing
time, about 49269.2455); and the claimed bound `milliseconds < 1000` fails:
at `msd = 599999/864000000` the remaining fraction rounds up to exactly
1000 milliseconds. -/
theorem C7_clock_counterexample :
    mtc_from_msd (49269.25) = ⟨6, 0, 0, 0⟩ ∧
      (mtc_from_msd (599999/864000000)).milliseconds = 1000 := by
  constructor
  · norm_num [mtc_from_msd, qfmod, qtrunc, round_eq]
    decide
  · norm_num [mtc_from_msd, qfmod, qtrunc, round_eq]
    decide

/-- C7 (amended): for every `msd` the derived clock satisfies `hours < 24`,
`minutes < 60`, `seconds < 60` and `milliseconds ≤ 1000` (the rounding of the
final fraction can reach exactly 1000); and the clock of the MSD that basic
mode computes for the Curiosity landing instant `2012-08-06T05:17:57.000`
reads 5:53:28 (while the clock at exactly 49269.25 reads 06:00:00). -/
theorem C7_clock_amended :
    (∀ msd : ℚ, (mtc_from_msd msd).hours < 24 ∧ (mtc_from_msd msd).minutes < 60 ∧
      (mtc_from_msd msd).seconds < 60 ∧ (mtc_from_msd msd).milliseconds ≤ 1000) ∧
    ((mtc_from_msd ((utc_to_msd_basic ("2012-08-06T05:17:57.000")).toOption.getD 0)).hours = 5 ∧
      (mtc_from_msd ((utc_to_msd_basic ("2012-08-06T05:17:57.000")).toOption.getD 0)).minutes = 53 ∧
      (mtc_from_msd ((utc_to_msd_basic ("2012-08-06T05:17:57.000")).toOption.getD 0)).seconds = 28) := by
  refine ⟨mtc_from_msd_bounds, ?_⟩
  have hq : utc_to_msd_basic ("2012-08-06T05:17:57.000")
      = .ok (13668404048542000/277422637959) := by
    have hp : parseValidate ("2012-08-06T05:17:57.000").data
        = .ok ⟨2012, 8, 6, 5, 17, 57, 0⟩ := by decide
    rw [utc_to_msd_basic, hp]
    norm_num [Except.bind, utc_to_msd_fieldsBasic, from_gregorian_utc, to_jde_tt_days, utcJD,
      leap_seconds, gregorianJDN, TAI_TO_TT_OFFSET]
  have hm : mtc_from_msd (13668404048542000/277422637959) = ⟨5, 53, 28, 610⟩ := by
    norm_num [mtc_from_msd, qfmod, qtrunc, round_eq]
    decide
  rw [hq]
  simp only [Except.toOption, Option.getD_some, hm]
  exact ⟨trivial, trivial, trivial⟩

/-- C8 counterexample: the claim calls the `TimeCalculationError` branch
unreachable for inputs passing the Sol-0 date check; `1873-12-29T00:00:00.000`
passes parsing and validation yet basic mode fails with
`TimeCalculationError`, its computed MSD being about -0.489. -/
theorem C8_guard_counterexample :
    (parseValidate ("1873-12-29T00:00:00.000").data).isOk = true ∧
      utc_to_msd_basic ("1873-12-29T00:00:00.000") = .error .TimeCalculationError := by
  refine ⟨by decide, ?_⟩
  have hp : parseValidate ("1873-12-29T00:00:00.000").data
      = .ok ⟨1873, 12, 29, 0, 0, 0, 0⟩ := by decide
  rw [utc_to_msd_basic, hp]
  norm_num [Except.bind, utc_to_msd_fieldsBasic, from_gregorian_utc, to_jde_tt_days, utcJD,
    leap_seconds, gregorianJDN, TAI_TO_TT_OFFSET]

/-- C8 (amended): in both modes the numeric stage returns `Ok(msd)` exactly
when the computed MSD is non-negative (finiteness is automatic in the exact
model) and otherwise fails with `TimeCalculationError` -- after, in advanced
mode, the fallible leap-second lookup; the failure branch is however
reachable for validated inputs: `1873-12-29T00:00:00.000` passes the Sol-0
check and fails with `TimeCalculationError`. -/
theorem C8_guard_amended :
    (∀ f : CivilTime,
      utc_to_msd_fieldsBasic f =
        if 0 ≤ (to_jde_tt_days (from_gregorian_utc f) - 2405522.0028779) / 1.0274912517 then
          .ok ((to_jde_tt_days (from_gregorian_utc f) - 2405522.0028779) / 1.0274912517)
        else .error .TimeCalculationError) ∧
    (∀ f : CivilTime,
      utc_to_msd_fieldsAdvanced f =
        match leap_seconds (utcJD f) with
        | none => .error .LeapSecondError
        | some ls =>
          let jd_tt : ℝ := ((to_jde_tt_days (epochAddSeconds
            (epochAddSeconds (from_gregorian_utc f) ls) TAI_TO_TT_OFFSET) : ℚ) : ℝ)
          let m := fmod64 (6.24004077 + 0.01720197034 * (jd_tt - 2451545.0)) (2 * Real.pi)
          let jd_tdb := jd_tt + 0.001658 * Real.sin m + 0.000014 * Real.sin (2 * m)
          let msd := (jd_tdb - ((JD_ON_SOL_ZERO : ℚ) : ℝ)) / ((SOL_IN_EARTH_DAYS : ℚ) : ℝ)
          if 0 ≤ msd then .ok msd else .error .TimeCalculationError) ∧
    (parseValidate ("1873-12-29T00:00:00.000").data = .ok ⟨1873, 12, 29, 0, 0, 0, 0⟩ ∧
      utc_to_msd_basic ("1873-12-29T00:00:00.000") = .error .TimeCalculationError) := by
  refine ⟨fun f => rfl, fun f => rfl, by decide, ?_⟩
  have hp : parseValidate ("1873-12-29T00:00:00.000").data
      = .ok ⟨1873, 12, 29, 0, 0, 0, 0⟩ := by decide
  rw [utc_to_msd_basic, hp]
  norm_num [Except.bind, utc_to_msd_fieldsBasic, from_gregorian_utc, to_jde_tt_days, utcJD,
    leap_seconds, gregorianJDN, TAI_TO_TT_OFFSET]

/-- C9: the modelled `msd_to_utc` rejects a negative MSD with the
below-minimum error and otherwise maps `jd_tdb = msd * SOL_IN_EARTH_DAYS +
JD_ON_SOL_ZERO` back to a UTC instant with millisecond precision and no
TDB-to-TT back-correction (see the definition of `msd_to_utc`); the basic
forward conversion computes exactly `msd_of_utc_jd` of the parsed UTC day;
and whenever the inverse succeeds and the leap-second lookups at the source
and target instants agree, the round trip through the basic forward
conversion reproduces the MSD within `1/88776` sol -- under one second of
sol-time. -/
theorem C9_round_trip :
    (∀ msd : ℚ, msd < 0 → msd_to_utc msd = .error .DateBelowSolZeroError) ∧
    (∀ f : CivilTime,
      utc_to_msd_fieldsBasic f =
        if 0 ≤ msd_of_utc_jd (utcJD f) then .ok (msd_of_utc_jd (utcJD f))
        else .error .TimeCalculationError) ∧
    (∀ msd u : ℚ, msd_to_utc msd = .ok u →
      leap_seconds u = leap_seconds
        (msd * SOL_IN_EARTH_DAYS + JD_ON_SOL_ZERO - TAI_TO_TT_OFFSET / 86400) →
      |msd_of_utc_jd u - msd| ≤ 1/88776) := by
  refine ⟨?_, fun f => rfl, ?_⟩
  · intro msd hneg
    rw [msd_to_utc, if_pos hneg]
  · intro msd u h hagree
    simp only [msd_to_utc] at h
    split at h
    · cases h
    case isFalse hpos =>
      cases hls : leap_seconds
          (msd * SOL_IN_EARTH_DAYS + JD_ON_SOL_ZERO - TAI_TO_TT_OFFSET / 86400) with
      | none =>
        rw [hls] at h
        cases h
      | some ls =>
        rw [hls] at h
        cases h
        rw [hls] at hagree
        have hS : (0 : ℚ) < SOL_IN_EARTH_DAYS := by norm_num [SOL_IN_EARTH_DAYS]
        have hSne : SOL_IN_EARTH_DAYS ≠ 0 := ne_of_gt hS
        have hd : |round_to_ms ((msd * SOL_IN_EARTH_DAYS + JD_ON_SOL_ZERO
              - TAI_TO_TT_OFFSET / 86400) - ls / 86400)
            - ((msd * SOL_IN_EARTH_DAYS + JD_ON_SOL_ZERO
              - TAI_TO_TT_OFFSET / 86400) - ls / 86400)| ≤ 1/172800000 := by
          rw [round_to_ms]
          have habs := abs_sub_round (((msd * SOL_IN_EARTH_DAYS + JD_ON_SOL_ZERO
            - TAI_TO_TT_OFFSET / 86400) - ls / 86400) * 86400000)
          rw [abs_sub_comm] at habs
          have heq : ((round (((msd * SOL_IN_EARTH_DAYS + JD_ON_SOL_ZERO
                - TAI_TO_TT_OFFSET / 86400) - ls / 86400) * 86400000) : ℤ) : ℚ) / 86400000
              - ((msd * SOL_IN_EARTH_DAYS + JD_ON_SOL_ZERO
                - TAI_TO_TT_OFFSET / 86400) - ls / 86400)
              = (((round (((msd * SOL_IN_EARTH_DAYS + JD_ON_SOL_ZERO
                  - TAI_TO_TT_OFFSET / 86400) - ls / 86400) * 86400000) : ℤ) : ℚ)
                - ((msd * SOL_IN_EARTH_DAYS + JD_ON_SOL_ZERO
                  - TAI_TO_TT_OFFSET / 86400) - ls / 86400) * 86400000) / 86400000 := by
            ring
          rw [heq, abs_div, abs_of_pos (show (0:ℚ) < 86400000 by norm_num)]
          linarith
        have hmain : msd_of_utc_jd (round_to_ms ((msd * SOL_IN_EARTH_DAYS + JD_ON_SOL_ZERO
              - TAI_TO_TT_OFFSET / 86400) - ls / 86400)) - msd
            = (round_to_ms ((msd * SOL_IN_EARTH_DAYS + JD_ON_SOL_ZERO
                - TAI_TO_TT_OFFSET / 86400) - ls / 86400)
              - ((msd * SOL_IN_EARTH_DAYS + JD_ON_SOL_ZERO
                - TAI_TO_TT_OFFSET / 86400) - ls / 86400)) / SOL_IN_EARTH_DAYS := by
          simp only [msd_of_utc_jd, hagree, Option.getD_some, to_jde_tt_days]
          field_simp
          ring
        rw [hmain, abs_div, abs_of_pos hS]
        refine le_trans ((div_le_div_iff_of_pos_right hS).2 hd) ?_
        rw [div_le_iff₀ hS]
        norm_num [SOL_IN_EARTH_DAYS]

/-- C9 witness: the round trip at `msd = 49269.25`: the inverse succeeds with
the UTC day 157193326429/64000 (about 2456145.72545), the leap-second lookups
agree there (35 s), and the reproduced MSD is within `1/88776` sol. -/
theorem C9_round_trip_witness :
    msd_to_utc (-1) = .error .DateBelowSolZeroError ∧
    msd_to_utc (49269.25) = .ok (157193326429/64000) ∧
    leap_seconds (157193326429/64000) = leap_seconds
      ((49269.25 : ℚ) * SOL_IN_EARTH_DAYS + JD_ON_SOL_ZERO - TAI_TO_TT_OFFSET / 86400) ∧
    |msd_of_utc_jd (157193326429/64000) - 49269.25| ≤ 1/88776 := by
  have h1 : msd_to_utc (49269.25) = .ok (157193326429/64000) := by
    norm_num [msd_to_utc, SOL_IN_EARTH_DAYS, JD_ON_SOL_ZERO, TAI_TO_TT_OFFSET,
      leap_seconds, round_to_ms, round_eq]
  have h2 : leap_seconds (157193326429/64000) = leap_seconds
      ((49269.25 : ℚ) * SOL_IN_EARTH_DAYS + JD_ON_SOL_ZERO - TAI_TO_TT_OFFSET / 86400) := by
    norm_num [leap_seconds, SOL_IN_EARTH_DAYS, JD_ON_SOL_ZERO, TAI_TO_TT_OFFSET]
  exact ⟨C9_round_trip.1 (-1) (by norm_num), h1, h2,
    C9_round_trip.2.2 (49269.25) (157193326429/64000) h1 h2⟩

/-- C10: `msd_to_darian` is total over the exact model of every finite `f64`
and never returns an error (the `MonthValueOutOfRange` branch is unreachable
from its loops); and when `adjusted = msd + 94130.9446045 - 1` is negative the
saturating floor-to-`u32` cast yields zero, so the call silently returns year
0, month 1, and a sol equal to the fractional part of `adjusted`. -/
theorem C10_totality_and_saturation :
    (∀ msd : ℚ, (msd_to_darian msd).isOk = true) ∧
    (∀ msd : ℚ, msd + SOL_DIFFERENCE_BETWEEN_DARIAN_AND_MSD - 1 < 0 →
      msd_to_darian msd = .ok ⟨0, 1,
        (msd + SOL_DIFFERENCE_BETWEEN_DARIAN_AND_MSD - 1)
          - (⌊msd + SOL_DIFFERENCE_BETWEEN_DARIAN_AND_MSD - 1⌋ : ℤ)⟩) := by
  constructor
  · intro msd
    obtain ⟨mo, rem, len, heq, -, -, -, -⟩ := msd_to_darian_eq msd
    rw [heq]
    rfl
  · intro msd hneg
    have hfloor : ⌊msd + SOL_DIFFERENCE_BETWEEN_DARIAN_AND_MSD - 1⌋ < 0 :=
      Int.floor_lt.2 (by exact_mod_cast hneg)
    have htot : floor_to_u32 (msd + SOL_DIFFERENCE_BETWEEN_DARIAN_AND_MSD - 1) = 0 := by
      rw [floor_to_u32, max_eq_right hfloor.le,
        min_eq_left (show (0:ℤ) ≤ 4294967295 by norm_num)]
      rfl
    have hY : darianYearAux (0 / 668 + 1) 0 0 = (0, 0) := by decide
    have hM : darianMonthAux 25 ((0 : ℕ) : ℤ) 1 0 = .ok (1, 0) := by decide
    simp only [msd_to_darian, htot, hY, hM, except_map_ok, DarianDate.mk.injEq]
    norm_num

/-- C10 witness: at `msd = -94200` the rebased value is negative (about
-70.055) and the conversion silently returns year 0, month 1, sol equal to
the fractional part 0.9446045. -/
theorem C10_saturation_witness :
    ((-94200 : ℚ) + SOL_DIFFERENCE_BETWEEN_DARIAN_AND_MSD - 1 < 0) ∧
    msd_to_darian (-94200) = .ok ⟨0, 1,
      ((-94200 : ℚ) + SOL_DIFFERENCE_BETWEEN_DARIAN_AND_MSD - 1)
        - (⌊(-94200 : ℚ) + SOL_DIFFERENCE_BETWEEN_DARIAN_AND_MSD - 1⌋ : ℤ)⟩ :=
  ⟨by norm_num [SOL_DIFFERENCE_BETWEEN_DARIAN_AND_MSD],
    C10_totality_and_saturation.2 (-94200)
      (by norm_num [SOL_DIFFERENCE_BETWEEN_DARIAN_AND_MSD])⟩

end Martian
